import Mathlib

/-!
Verification of the `net-route` library (Rust) against its specification.

The development shallowly embeds the parts of the source the claims talk
about:

* `src/src/lib.rs` — the `Route` value type and its `mask()` method,
  plus `RouteChange`;
* `src/src/platform_impl/macos/macos.rs` — the PF_ROUTE record parser
  (`message_to_route` and its sockaddr walk), the mutation encoder
  (`add_or_del_route`), `code_to_error`, `default_route` and the
  listener loop;
* `src/src/platform_impl/linux.rs` — the netlink decoder
  (`From<RouteMessage> for Route`), `default_route`, `delete`, and the
  listener loop;
* `src/src/platform_impl/windows.rs` — `row_to_route`'s output shape,
  `code_to_error` and `default_route`.

Machine integers are modelled as `Nat` (with explicit `% 2^w` where the
source relies on wrapping), `i32` error codes as `Int`.  Rust panics
(`assert!`, `unwrap()` on `None`, transmutes guarded by asserts) are
modelled by an outer `Option`: `none` is a panic, `some x` is a normal
result `x`.  Kernel interaction (socket writes, replies) is abstracted
by passing the kernel's reply code as an explicit argument.

IPv4 addresses are the 32-bit value of their big-endian octets, IPv6
addresses the 128-bit value of theirs.  The field named `prefix` in the
Rust source is called `prefixLen` here.
-/

namespace NetRoute

/-! ### Data model (src/src/lib.rs) -/

/-- `std::net::IpAddr`: a v4 or v6 address, as the numeric value of its
big-endian octet string. -/
inductive IpAddr where
  | v4 (a : Nat)
  | v6 (a : Nat)
  deriving DecidableEq, Repr

/-- Bit width of the address family (32 for v4, 128 for v6). -/
def IpAddr.width : IpAddr → Nat
  | .v4 _ => 32
  | .v6 _ => 128

/-- The numeric value of the address. -/
def IpAddr.num : IpAddr → Nat
  | .v4 a => a
  | .v6 a => a

/-- Whether two addresses belong to the same family. -/
def IpAddr.sameFamily : IpAddr → IpAddr → Bool
  | .v4 _, .v4 _ => true
  | .v6 _, .v6 _ => true
  | _, _ => false

/-- `u32::checked_shl`: `none` iff the shift amount is ≥ 32, otherwise
the shifted value truncated to 32 bits. -/
def u32_checked_shl (x n : Nat) : Option Nat :=
  if n < 32 then some ((x <<< n) % 2 ^ 32) else none

/-- `u128::checked_shl`. -/
def u128_checked_shl (x n : Nat) : Option Nat :=
  if n < 128 then some ((x <<< n) % 2 ^ 128) else none

/-- `crate::Route` (the cross-platform fields; the Linux-only fields
live in `LinuxRoute` below, the Windows-only ones in `WinRoute`).
`prefixLen` is the source's `prefix : u8`. -/
structure Route where
  destination : IpAddr
  prefixLen : Nat
  gateway : Option IpAddr
  ifindex : Option Nat
  deriving DecidableEq, Repr

/-- `Route::mask` (src/src/lib.rs:161-170): netmask of the destination
family.  The source computes `u32::MAX.checked_shl(32 - prefix as u32)
.unwrap_or(0)` (and the 128-bit analogue); `32 - prefix` is u32
subtraction, which for `prefix ≤ 32` agrees with the `Nat` subtraction
used here (the claims only concern that range). -/
def Route.mask (r : Route) : IpAddr :=
  match r.destination with
  | .v4 _ => .v4 ((u32_checked_shl (2 ^ 32 - 1) (32 - r.prefixLen)).getD 0)
  | .v6 _ => .v6 ((u128_checked_shl (2 ^ 128 - 1) (128 - r.prefixLen)).getD 0)

/-- `crate::RouteChange`. -/
inductive RouteChange where
  | add (r : Route)
  | delete (r : Route)
  | change (r : Route)
  deriving DecidableEq, Repr

/-! ### Event fanout (identical in all three backends)

`linux.rs:39`, `macos.rs:41` and `windows.rs:99` each create
`broadcast::channel::<RouteChange>(16)`, and `route_listen_stream`
(`linux.rs:103-116`, `macos.rs:70-83`, `windows.rs:122-135`) runs the
same loop over `rx.recv()`: `Ok` is yielded, `Lagged` is skipped with
`continue`, `Closed` breaks the loop.  A subscriber's interaction with
the channel is modelled as the trace of results its receiver returns. -/

/-- The literal capacity passed to `broadcast::channel` in all three
backends. -/
def broadcast_capacity : Nat := 16

/-- One result of `broadcast::Receiver::recv`. -/
inductive RecvResult where
  | ok (ev : RouteChange)
  | lagged (n : Nat)
  | closed
  deriving DecidableEq, Repr

/-- Whether the result is `RecvError::Closed`. -/
def RecvResult.isClosed : RecvResult → Bool
  | .closed => true
  | _ => false

/-- The event carried by an `Ok` result. -/
def RecvResult.okEvent : RecvResult → Option RouteChange
  | .ok ev => some ev
  | _ => none

/-- The items yielded by the `route_listen_stream` loop on a given trace
of receiver results: `Ok` yields, `Lagged` continues, `Closed` breaks. -/
def route_listen_loop : List RecvResult → List RouteChange
  | [] => []
  | .ok ev :: rest => ev :: route_listen_loop rest
  | .lagged _ :: rest => route_listen_loop rest
  | .closed :: _ => []

/-! ### macOS backend: constants

The numeric values come from the macOS SDK headers, which the crate
binds verbatim via `bindgen` (`build.rs` / `wrapper.h`):
`<net/route.h>` for the `RTAX_*`, `RTA_*`, `RTF_*` and `RTM_*`
constants, `<sys/socket.h>` for the address families, and the fixed
struct sizes `sizeof(sockaddr) = 16`, `sizeof(sockaddr_in) = 16`,
`sizeof(sockaddr_in6) = 28`, `sizeof(sockaddr_dl) = 20`,
`sizeof(rt_msghdr) = 92` (little-endian 64-bit macOS). -/

def RTAX_DST : Nat := 0
def RTAX_GATEWAY : Nat := 1
def RTAX_NETMASK : Nat := 2
def RTAX_MAX : Nat := 8
def RTA_DST : Nat := 0x1
def RTA_GATEWAY : Nat := 0x2
def RTA_NETMASK : Nat := 0x4
def RTF_UP : Nat := 0x1
def RTF_GATEWAY : Nat := 0x2
def RTF_STATIC : Nat := 0x800
def RTM_ADD : Nat := 0x1
def RTM_DELETE : Nat := 0x2
def RTM_VERSION : Nat := 5
def AF_INET : Nat := 2
def AF_INET6 : Nat := 30
def AF_LINK : Nat := 18
def sizeof_sockaddr : Nat := 16
def sizeof_sockaddr_in : Nat := 16
def sizeof_sockaddr_in6 : Nat := 28
def sizeof_sockaddr_dl : Nat := 20
def sizeof_rt_msghdr : Nat := 92

/-- `ENOBUFS` in the macOS `<sys/errno.h>` (the source's
`code_to_error` comments its `3436` arm with "ENOBUFS"). -/
def ENOBUFS_darwin : Int := 55

/-! ### macOS backend: record parsing (`message_to_route`) -/

/-- The two `rt_msghdr` fields `message_to_route` consults
(`rtm_addrs : i32` as a non-negative bit set, `rtm_index : u16`). -/
structure RtMsgHdr where
  rtm_addrs : Nat
  rtm_index : Nat
  deriving DecidableEq, Repr

/-- A `&sockaddr` reference obtained by casting a position in the
record body: `bytes` is the whole remaining buffer from that position
(the Rust reference can be, and is, reinterpreted as the larger
`sockaddr_in`/`sockaddr_in6` structs, reading past `sa_len`).  Reads
past the end of the buffer would be undefined behaviour in the source;
here they read 0. -/
structure SockaddrView where
  bytes : List Nat
  deriving DecidableEq, Repr

/-- `sa_len`: first byte of the sockaddr. -/
def SockaddrView.sa_len (s : SockaddrView) : Nat := s.bytes.getD 0 0

/-- `sa_family`: second byte of the sockaddr. -/
def SockaddrView.sa_family (s : SockaddrView) : Nat := s.bytes.getD 1 0

/-- The `ROUNDUP` advance of `message_to_route` (macos.rs:165-169):
4 when `sa_len == 0`, otherwise `((sa_len - 1) | 0x3) + 1` computed in
`u8` arithmetic — for `sa_len ≥ 253` the addition overflows (a panic in
debug builds, wrap-around in release builds; modelled as `% 256`). -/
def alignedLen (sa_len : Nat) : Nat :=
  if sa_len = 0 then 4 else (((sa_len - 1) ||| 3) + 1) % 256

/-- The sockaddr walk of `message_to_route` (macos.rs:150-172) over a
list of bit indices: for each index whose bit is set in `rtm_addrs`,
when fewer than `sizeof(sockaddr)` bytes remain the entry is skipped
(`continue`) without advancing; otherwise the sockaddr at the current
offset is recorded and the offset advances by `alignedLen`; the
`assert!(buf.len() >= sa_len)` panic is `none`. -/
def get_rtaddrs_go (a : Nat) (msg : List Nat) :
    List Nat → List (Option SockaddrView) → Nat → Option (List (Option SockaddrView) × Nat)
  | [], tbl, pos => some (tbl, pos)
  | idx :: rest, tbl, pos =>
    if a &&& (1 <<< idx) ≠ 0 then
      if (msg.drop pos).length < sizeof_sockaddr then
        get_rtaddrs_go a msg rest tbl pos
      else if (msg.drop pos).length < (SockaddrView.mk (msg.drop pos)).sa_len then
        none
      else
        get_rtaddrs_go a msg rest (tbl.set idx (some (SockaddrView.mk (msg.drop pos))))
          (pos + alignedLen (SockaddrView.mk (msg.drop pos)).sa_len)
    else get_rtaddrs_go a msg rest tbl pos

/-- The full sockaddr walk: indices `0..RTAX_MAX`, empty table, offset 0. -/
def get_rtaddrs (a : Nat) (msg : List Nat) : Option (List (Option SockaddrView) × Nat) :=
  get_rtaddrs_go a msg (List.range RTAX_MAX) (List.replicate RTAX_MAX none) 0

/-- Modelled from the spec's words for claim C4 (refinement
comparison): "for each bit index i in 0..RTAX_MAX whose bit is set,
read a sockaddr at the current offset and advance by
`((sa_len - 1) | 3) + 1`, or 4 bytes when `sa_len == 0`" —
unconditionally, with the advance as plain arithmetic. -/
def get_rtaddrs_spec_go (a : Nat) (msg : List Nat) :
    List Nat → List (Option SockaddrView) → Nat → List (Option SockaddrView) × Nat
  | [], tbl, pos => (tbl, pos)
  | idx :: rest, tbl, pos =>
    if a &&& (1 <<< idx) ≠ 0 then
      get_rtaddrs_spec_go a msg rest (tbl.set idx (some (SockaddrView.mk (msg.drop pos))))
        (pos + if (SockaddrView.mk (msg.drop pos)).sa_len = 0 then 4
               else (((SockaddrView.mk (msg.drop pos)).sa_len - 1) ||| 3) + 1)
    else get_rtaddrs_spec_go a msg rest tbl pos

/-- The spec-side walk over indices `0..RTAX_MAX`. -/
def get_rtaddrs_spec (a : Nat) (msg : List Nat) : List (Option SockaddrView) × Nat :=
  get_rtaddrs_spec_go a msg (List.range RTAX_MAX) (List.replicate RTAX_MAX none) 0

/-- Benign-walk condition: at every set bit at least `sizeof(sockaddr)`
bytes remain, `sa_len` does not exceed the remaining bytes, and the
rounded-up length fits in a `u8` (no overflow). -/
def rtaddrs_ok_go (a : Nat) (msg : List Nat) : List Nat → Nat → Bool
  | [], _ => true
  | idx :: rest, pos =>
    if a &&& (1 <<< idx) ≠ 0 then
      decide (sizeof_sockaddr ≤ (msg.drop pos).length) &&
      decide ((msg.drop pos).getD 0 0 ≤ (msg.drop pos).length) &&
      (decide ((msg.drop pos).getD 0 0 = 0) ||
        decide ((((msg.drop pos).getD 0 0 - 1) ||| 3) + 1 < 256)) &&
      rtaddrs_ok_go a msg rest (pos + alignedLen ((msg.drop pos).getD 0 0))
    else rtaddrs_ok_go a msg rest pos

/-- Benign-walk condition over indices `0..RTAX_MAX`. -/
def rtaddrs_ok (a : Nat) (msg : List Nat) : Bool :=
  rtaddrs_ok_go a msg (List.range RTAX_MAX) 0

/-- Value of a big-endian byte string. -/
def beBytes (l : List Nat) : Nat := l.foldl (fun acc b => acc * 256 + b) 0

/-- `sa_to_ip` (macos.rs:268-285).  Outer `none` is the
`assert!(sa_len >= sizeof(..))` panic; `some none` means the family
decodes to no IP (`AF_LINK` and anything else).  The v4 address is the
4 bytes at offset 4 (`sin_addr`), the v6 address the 16 bytes at
offset 8 (`sin6_addr`). -/
def sa_to_ip (sa : SockaddrView) : Option (Option IpAddr) :=
  if sa.sa_family = AF_INET then
    if sa.sa_len < sizeof_sockaddr_in then none
    else some (some (.v4 (beBytes ((sa.bytes.drop 4).take 4))))
  else if sa.sa_family = AF_INET6 then
    if sa.sa_len < sizeof_sockaddr_in6 then none
    else some (some (.v6 (beBytes ((sa.bytes.drop 8).take 16))))
  else some none

/-- Segment i (16-bit, big-endian order) of a v6 address value:
`Ipv6Addr::segments()[i]`. -/
def v6seg (a : Nat) (i : Nat) : Nat := (a >>> (112 - 16 * i)) % 65536

/-- Octet i of a v6 address value: `Ipv6Addr::octets()[i]`. -/
def v6oct (a : Nat) (i : Nat) : Nat := (a >>> (120 - 8 * i)) % 256

/-- The v6 gateway fix-up of `message_to_route` (macos.rs:185-205):
when the gateway's first segment is `0xfe80`, or its first octet is
`0xff` with scope nibble 1 or 2, rebuild the address with segment 1
(bytes 2-3, where the kernel encodes the zone id) set to 0; otherwise
the address is unchanged. -/
def fix_v6_gateway (a : Nat) : Nat :=
  if v6seg a 0 = 0xfe80 ∨ (v6oct a 0 = 0xff ∧ (v6oct a 1 % 16 = 1 ∨ v6oct a 1 % 16 = 2)) then
    v6seg a 0 * 2 ^ 112 + 0 * 2 ^ 96 + v6seg a 2 * 2 ^ 80 + v6seg a 3 * 2 ^ 64 +
      v6seg a 4 * 2 ^ 48 + v6seg a 5 * 2 ^ 32 + v6seg a 6 * 2 ^ 16 + v6seg a 7
  else a

/-- Number of leading 1-bits of a w-bit value (`leading_ones`). -/
def leadingOnes (w x : Nat) : Nat :=
  ((List.range w).takeWhile (fun i => x.testBit (w - 1 - i))).length

/-- The prefix computed by `message_to_route` (macos.rs:176-229): it
starts at the destination family's width; when the `RTAX_NETMASK` bit
is set it becomes 0 for a missing or `sa_len == 0` netmask entry and
otherwise the number of leading ones of the netmask bytes
(`sin_addr` at offset 4 for v4, `sin6_addr` at offset 8 for v6). -/
def netmaskPrefixLen (hdr : RtMsgHdr) (tbl : List (Option SockaddrView)) (destination : IpAddr) :
    Nat :=
  if hdr.rtm_addrs &&& (1 <<< RTAX_NETMASK) ≠ 0 then
    match tbl.getD RTAX_NETMASK none with
    | none => 0
    | some sa =>
      if sa.sa_len = 0 then 0
      else
        match destination with
        | .v4 _ => leadingOnes 32 (beBytes ((sa.bytes.drop 4).take 4))
        | .v6 _ => leadingOnes 128 (beBytes ((sa.bytes.drop 8).take 16))
  else destination.width

/-- `message_to_route` (macos.rs:137-237).  Outer `none` is a panic
(failed walk assert, `unwrap()` of a missing table entry, or a
`sa_to_ip` assert); `some none` is a skipped record (no `RTAX_DST`
bit, or a destination that decodes to no IP); `some (some r)` is a
parsed route with `ifindex = Some(rtm_index)`. -/
def message_to_route (hdr : RtMsgHdr) (msg : List Nat) : Option (Option Route) :=
  if hdr.rtm_addrs &&& (1 <<< RTAX_DST) = 0 then some none
  else
    match get_rtaddrs hdr.rtm_addrs msg with
    | none => none
    | some (tbl, _) =>
      match tbl.getD RTAX_DST none with
      | none => none
      | some dst_sa =>
        match sa_to_ip dst_sa with
        | none => none
        | some none => some none
        | some (some destination) =>
          if hdr.rtm_addrs &&& (1 <<< RTAX_GATEWAY) ≠ 0 then
            match tbl.getD RTAX_GATEWAY none with
            | none => none
            | some gw_sa =>
              match sa_to_ip gw_sa with
              | none => none
              | some gw0 =>
                some (some ⟨destination, netmaskPrefixLen hdr tbl destination,
                  (match gw0 with
                   | some (.v6 g) => some (IpAddr.v6 (fix_v6_gateway g))
                   | x => x),
                  some hdr.rtm_index⟩)
          else
            some (some ⟨destination, netmaskPrefixLen hdr tbl destination, none,
              some hdr.rtm_index⟩)

/-! ### macOS backend: errors, mutation encoding, default route -/

/-- `std::io::ErrorKind` values used by the crate. -/
inductive ErrKind where
  | notFound
  | alreadyExists
  | outOfMemory
  | permissionDenied
  | invalidInput
  | other
  deriving DecidableEq, Repr

/-- A `std::io::Error` as the crate builds them: a kind plus the
numeric kernel code embedded in the message text (0 when the message
carries no code). -/
structure IoError where
  kind : ErrKind
  code : Int
  deriving DecidableEq, Repr

/-- macOS `code_to_error` (macos.rs:404-413): the message is
`format!("rtm_errno {}", err)`, so the code is always included. -/
def macos_code_to_error (err : Int) : IoError :=
  ⟨if err = 17 then .alreadyExists
   else if err = 3 then .notFound
   else if err = 3436 then .outOfMemory
   else .other, err⟩

/-- Windows `code_to_error` (windows.rs:77-87): the message is
`format!("{}: {}", code, msg)`, so the code is always included. -/
def windows_code_to_error (code : Nat) : IoError :=
  ⟨if code = 2 then .notFound
   else if code = 5 then .permissionDenied
   else if code = 87 then .invalidInput
   else if code = 5010 then .alreadyExists
   else if code = 1168 then .notFound
   else .other, (code : Int)⟩

/-- Big-endian octets of a 32-bit value. -/
def octets4 (a : Nat) : List Nat :=
  [a / 2 ^ 24 % 256, a / 2 ^ 16 % 256, a / 2 ^ 8 % 256, a % 256]

/-- Big-endian octets of a 128-bit value. -/
def octets16 (a : Nat) : List Nat :=
  octets4 (a / 2 ^ 96 % 2 ^ 32) ++ octets4 (a / 2 ^ 64 % 2 ^ 32) ++
    octets4 (a / 2 ^ 32 % 2 ^ 32) ++ octets4 (a % 2 ^ 32)

/-- The bytes of the `sockaddr_in` the encoder builds
(macos.rs:457-470): `sin_len = 16`, `sin_family = AF_INET`,
`sin_port = 0`, the 4 address octets, `sin_zero = [0; 8]`. -/
def sockaddr_in_bytes (a : Nat) : List Nat :=
  [sizeof_sockaddr_in, AF_INET, 0, 0] ++ octets4 a ++ List.replicate 8 0

/-- The bytes of the `sockaddr_in6` the encoder builds
(macos.rs:472-490): `sin6_len = 28`, `sin6_family = AF_INET6`,
`sin6_port = 0`, `sin6_flowinfo = 0`, the 16 address octets,
`sin6_scope_id = 0`. -/
def sockaddr_in6_bytes (a : Nat) : List Nat :=
  [sizeof_sockaddr_in6, AF_INET6, 0, 0] ++ List.replicate 4 0 ++ octets16 a ++
    List.replicate 4 0

/-- The bytes of the `sockaddr_dl` the encoder builds
(macos.rs:535-549): `sdl_len = 20`, `sdl_family = AF_LINK`,
`sdl_index = ifindex as u16` (little-endian, truncating), and the
remaining fields zero. -/
def sockaddr_dl_bytes (ifindex : Nat) : List Nat :=
  [sizeof_sockaddr_dl, AF_LINK, ifindex % 256, ifindex / 256 % 256] ++ List.replicate 16 0

/-- The sockaddr bytes for an address of either family. -/
def ipSockaddrBytes : IpAddr → List Nat
  | .v4 a => sockaddr_in_bytes a
  | .v6 a => sockaddr_in6_bytes a

/-- `copy_from_slice` into `attrs[off .. off + b.length]`. -/
def writeAt (buf : List Nat) (off : Nat) (b : List Nat) : List Nat :=
  buf.take off ++ b ++ buf.drop (off + b.length)

/-- The parts of the encoded `m_rtmsg` that `add_or_del_route` fills
in: header fields, the 128-byte attribute buffer, and the final
attribute offset. -/
structure MRtMsg where
  rtm_msglen : Nat
  rtm_version : Nat
  rtm_type : Nat
  rtm_flags : Nat
  rtm_addrs : Nat
  rtm_seq : Nat
  attrs : List Nat
  attr_offset : Nat
  deriving DecidableEq, Repr

/-- The message built by `add_or_del_route` (macos.rs:415-592): flags
`RTF_STATIC | RTF_UP`, plus `RTF_GATEWAY` when a gateway is given or
the operation is a delete; `rtm_addrs = RTA_DST | RTA_NETMASK`, plus
`RTA_GATEWAY` on add; the attribute buffer receives, at successive
offsets, the destination sockaddr, the gateway sockaddr (if any), the
`sockaddr_dl` (if an ifindex is given), and the netmask sockaddr; and
`rtm_msglen = sizeof(rt_msghdr) + attr_offset`. -/
def add_or_del_route_msg (dst dst_mask : IpAddr) (gateway : Option IpAddr)
    (ifindex : Option Nat) (add : Bool) : MRtMsg :=
  let rtm_flags := (RTF_STATIC ||| RTF_UP) |||
    (if gateway.isSome || !add then RTF_GATEWAY else 0)
  let rtm_addrs := (RTA_DST ||| RTA_NETMASK) ||| (if add then RTA_GATEWAY else 0)
  let b1 := ipSockaddrBytes dst
  let attrs1 := writeAt (List.replicate 128 0) 0 b1
  let off1 := b1.length
  let attrs2 := match gateway with
    | some g => writeAt attrs1 off1 (ipSockaddrBytes g)
    | none => attrs1
  let off2 := match gateway with
    | some g => off1 + (ipSockaddrBytes g).length
    | none => off1
  let attrs3 := match ifindex with
    | some i => writeAt attrs2 off2 (sockaddr_dl_bytes i)
    | none => attrs2
  let off3 := match ifindex with
    | some i => off2 + (sockaddr_dl_bytes i).length
    | none => off2
  let b4 := ipSockaddrBytes dst_mask
  let attrs4 := writeAt attrs3 off3 b4
  let off4 := off3 + b4.length
  ⟨sizeof_rt_msghdr + off4, RTM_VERSION, if add then RTM_ADD else RTM_DELETE,
    rtm_flags, rtm_addrs, 1, attrs4, off4⟩

/-- The filter of macOS `default_route` (macos.rs:56-68). -/
def macos_default_route_pred (route : Route) : Bool :=
  (route.destination == IpAddr.v4 0 || route.destination == IpAddr.v6 0) &&
  (route.prefixLen == 0) &&
  !(route.gateway == some (IpAddr.v4 0)) &&
  !(route.gateway == some (IpAddr.v6 0))

/-- macOS `default_route`: first listed route passing the filter. -/
def macos_default_route (routes : List Route) : Option Route :=
  routes.find? macos_default_route_pred

/-! ### Windows backend -/

/-- `crate::Route` with the Windows-only fields.  `row_to_route`
(windows.rs:22-57) always sets `ifindex`, `luid` and `metric`. -/
structure WinRoute where
  destination : IpAddr
  prefixLen : Nat
  gateway : Option IpAddr
  ifindex : Option Nat
  metric : Option Nat
  luid : Option Nat
  deriving DecidableEq, Repr

/-- The filter of Windows `default_route` (windows.rs:149-155),
identical in shape to the macOS one. -/
def windows_default_route_pred (route : WinRoute) : Bool :=
  (route.destination == IpAddr.v4 0 || route.destination == IpAddr.v6 0) &&
  (route.prefixLen == 0) &&
  !(route.gateway == some (IpAddr.v4 0)) &&
  !(route.gateway == some (IpAddr.v6 0))

/-- `Option::<u32>::cmp` as a ≤ test: `None` sorts before `Some`. -/
def optNatLe : Option Nat → Option Nat → Bool
  | none, _ => true
  | some _, none => false
  | some a, some b => a ≤ b

/-- Stable insertion into a sorted list: the new element goes before
the first element it compares ≤ to. -/
def insertSortedBy (le : α → α → Bool) (a : α) : List α → List α
  | [] => [a]
  | b :: l => if le a b then a :: b :: l else b :: insertSortedBy le a l

/-- Stable sort (Rust `sort_by` is stable). -/
def sortBy (le : α → α → Bool) : List α → List α
  | [] => []
  | a :: l => insertSortedBy le a (sortBy le l)

/-- Windows `default_route` (windows.rs:147-158): filter, stable sort
by ascending `Metric`, first element. -/
def windows_default_route (routes : List WinRoute) : Option WinRoute :=
  (sortBy (fun a b => optNatLe a.metric b.metric)
    (routes.filter windows_default_route_pred)).head?

/-! ### Linux backend (linux.rs) -/

/-- `netlink_packet_route::route::RouteAddress` (the cases the decoder
distinguishes). -/
inductive RouteAddress where
  | inet (a : Nat)
  | inet6 (a : Nat)
  | otherAddr
  deriving DecidableEq, Repr

/-- `RouteAttribute` (the cases the decoder distinguishes). -/
inductive RouteAttr where
  | source (a : RouteAddress)
  | prefSource (a : RouteAddress)
  | destination (a : RouteAddress)
  | gateway (a : RouteAddress)
  | oif (i : Nat)
  | otherAttr
  deriving DecidableEq, Repr

/-- `AddressFamily` (the cases the decoder distinguishes). -/
inductive AddressFamily where
  | inet
  | inet6
  | otherFam
  deriving DecidableEq, Repr

/-- The `RouteMessage` header fields the decoder reads. -/
structure RouteMessageHeader where
  address_family : AddressFamily
  destination_prefix_length : Nat
  source_prefix_length : Nat
  table : Nat
  deriving DecidableEq, Repr

/-- A netlink `RouteMessage`. -/
structure RouteMessage where
  header : RouteMessageHeader
  attributes : List RouteAttr
  deriving DecidableEq, Repr

/-- `addr_to_ip` (linux.rs:279-285). -/
def addr_to_ip : RouteAddress → Option IpAddr
  | .inet a => some (.v4 a)
  | .inet6 a => some (.v6 a)
  | .otherAddr => none

/-- `crate::Route` with the Linux-only fields (`table`, `source`,
`source_prefix`, `source_hint`). -/
structure LinuxRoute where
  destination : IpAddr
  prefixLen : Nat
  source : Option IpAddr
  sourcePrefixLen : Nat
  source_hint : Option IpAddr
  gateway : Option IpAddr
  ifindex : Option Nat
  table : Nat
  deriving DecidableEq, Repr

/-- Accumulator of the attribute loop in `From<RouteMessage> for Route`
(linux.rs:289-314). -/
structure LinuxAcc where
  gateway : Option IpAddr
  source : Option IpAddr
  source_hint : Option IpAddr
  destination : Option IpAddr
  ifindex : Option Nat
  deriving DecidableEq, Repr

/-- One step of the attribute loop: each matching attribute overwrites
its accumulator slot (last one wins), others are ignored. -/
def linux_step (st : LinuxAcc) : RouteAttr → LinuxAcc
  | .source a => ⟨st.gateway, addr_to_ip a, st.source_hint, st.destination, st.ifindex⟩
  | .prefSource a => ⟨st.gateway, st.source, addr_to_ip a, st.destination, st.ifindex⟩
  | .destination a => ⟨st.gateway, st.source, st.source_hint, addr_to_ip a, st.ifindex⟩
  | .gateway a => ⟨addr_to_ip a, st.source, st.source_hint, st.destination, st.ifindex⟩
  | .oif i => ⟨st.gateway, st.source, st.source_hint, st.destination, some i⟩
  | .otherAttr => st

/-- `From<RouteMessage> for Route` (linux.rs:287-332): `none` models
the `panic!("invalid destination family")` when no destination
attribute decoded and the header family is neither inet nor inet6;
otherwise a missing destination becomes the unspecified address of the
header's family. -/
def routeMessageToRoute (msg : RouteMessage) : Option LinuxRoute :=
  match
    (match (msg.attributes.foldl linux_step ⟨none, none, none, none, none⟩).destination with
     | some d => some d
     | none =>
       match msg.header.address_family with
       | .inet => some (IpAddr.v4 0)
       | .inet6 => some (IpAddr.v6 0)
       | .otherFam => none) with
  | none => none
  | some d =>
    some ⟨d, msg.header.destination_prefix_length,
      (msg.attributes.foldl linux_step ⟨none, none, none, none, none⟩).source,
      msg.header.source_prefix_length,
      (msg.attributes.foldl linux_step ⟨none, none, none, none, none⟩).source_hint,
      (msg.attributes.foldl linux_step ⟨none, none, none, none, none⟩).gateway,
      (msg.attributes.foldl linux_step ⟨none, none, none, none, none⟩).ifindex,
      msg.header.table⟩

/-- `RouteExt::destination_prefix` (linux.rs:338-352): the first
destination attribute that decodes to an IP, with the header's
destination prefix length. -/
def destinationPrefixAttr (msg : RouteMessage) : Option (IpAddr × Nat) :=
  (msg.attributes.filterMap (fun attr =>
    match attr with
    | .destination a =>
      (addr_to_ip a).map (fun ip => (ip, msg.header.destination_prefix_length))
    | _ => none)).head?

/-- The scan of Linux `default_route` (linux.rs:52-77) over one
family's dump: first message whose `destination_prefix()` is `None` is
converted (`none` = the conversion panics). -/
def linux_default_route_scan : List RouteMessage → Option (Option LinuxRoute)
  | [] => some none
  | msg :: rest =>
    if destinationPrefixAttr msg = none then
      match routeMessageToRoute msg with
      | none => none
      | some r => some (some r)
    else linux_default_route_scan rest

/-- Linux `default_route`: scan the IPv4 dump, then the IPv6 dump. -/
def linux_default_route (v4dump v6dump : List RouteMessage) : Option (Option LinuxRoute) :=
  match linux_default_route_scan v4dump with
  | none => none
  | some (some r) => some (some r)
  | some none => linux_default_route_scan v6dump

/-- The match test of Linux `delete` (linux.rs:132): converted
destination and prefix equal the argument's; a message whose
conversion panics makes the whole call panic before comparing. -/
def linux_route_key_pred (route : LinuxRoute) (msg : RouteMessage) : Bool :=
  match routeMessageToRoute msg with
  | some other => other.destination == route.destination && other.prefixLen == route.prefixLen
  | none => false

/-- The scan of Linux `delete` (linux.rs:126-140): first dumped message
whose converted destination and prefix match; `none` = conversion
panic, `some none` = no match. -/
def linux_delete_scan (route : LinuxRoute) : List RouteMessage → Option (Option RouteMessage)
  | [] => some none
  | msg :: rest =>
    match routeMessageToRoute msg with
    | none => none
    | some other =>
      if other.destination = route.destination ∧ other.prefixLen = route.prefixLen then
        some (some msg)
      else linux_delete_scan route rest

/-- Linux `delete` on the dump of one family: `Ok` carries the original
dumped message submitted as `RTM_DELROUTE`; no match is a `NotFound`
error ("No matching route found to delete", no numeric code); a failed
`del` execution is mapped to `Other`. -/
def linux_delete_on (route : LinuxRoute) (dump : List RouteMessage) (del_reply_ok : Bool) :
    Option (Except IoError RouteMessage) :=
  match linux_delete_scan route dump with
  | none => none
  | some none => some (.error ⟨.notFound, 0⟩)
  | some (some msg) => some (if del_reply_ok then .ok msg else .error ⟨.other, 0⟩)

/-- Linux `delete` (linux.rs:118-146): the dump of the destination's
family is scanned. -/
def linux_delete (route : LinuxRoute) (v4dump v6dump : List RouteMessage)
    (del_reply_ok : Bool) : Option (Except IoError RouteMessage) :=
  linux_delete_on route
    (match route.destination with
     | .v4 _ => v4dump
     | .v6 _ => v6dump) del_reply_ok

/-! ### Concrete inputs used by counterexamples and witnesses -/

/-- A record body shorter than `sizeof(sockaddr)` (empty). -/
def c4shortMsg : List Nat := []

/-- A record body whose single sockaddr has `sa_len = 255`: the
rounded-up advance `((255 - 1) | 3) + 1 = 256` overflows a `u8`. -/
def c4wrapMsg : List Nat := 255 :: List.replicate 254 0

/-- A benign record body: two 16-byte `sockaddr_in`s (destination and
netmask). -/
def c4okMsg : List Nat := sockaddr_in_bytes 0x0A000001 ++ sockaddr_in_bytes 0xFFFFFF00

/-- A default-route entry with no gateway at all. -/
def c2macRoute : Route := ⟨.v4 0, 0, none, none⟩

/-- A netlink message with no attributes and prefix length 7. -/
def c2linuxMsg : RouteMessage := ⟨⟨.inet, 7, 0, 254⟩, []⟩

/-- A well-formed default route (gateway 192.0.2.1). -/
def c2goodRoute : Route := ⟨.v4 0, 0, some (.v4 0xC0000201), none⟩

/-- The v6 gateway `fe81:1234::` — inside fe80::/10 but with first
segment ≠ 0xfe80, and with bytes 2-3 equal to 0x12, 0x34. -/
def c5gw : Nat := 0xfe811234000000000000000000000000

/-- A PF_ROUTE record body: destination 10.0.0.1, gateway `c5gw`. -/
def c5msg : List Nat := sockaddr_in_bytes 0x0A000001 ++ sockaddr_in6_bytes c5gw

/-- A v6 gateway with first segment exactly 0xfe80 and a nonzero zone
id in bytes 2-3. -/
def c5llgw : Nat := 0xfe800005123400000000000000000001

/-- A record body with a single v4 destination sockaddr (no netmask). -/
def c10msg : List Nat := sockaddr_in_bytes 0x0A000001

/-- Delete target 5.0.0.0/24 (as numeric v4 value 5 here). -/
def c8route : LinuxRoute := ⟨.v4 5, 24, none, 0, none, none, none, 254⟩

/-- A dumped message that does not match `c8route`. -/
def c8msgA : RouteMessage := ⟨⟨.inet, 16, 0, 254⟩, [.destination (.inet 9)]⟩

/-- A dumped message matching `c8route` on destination and prefix but
with a different table, a gateway, and an ifindex. -/
def c8msgB : RouteMessage :=
  ⟨⟨.inet, 24, 0, 10⟩, [.destination (.inet 5), .gateway (.inet 7), .oif 3]⟩

/-! #### Claim C5 -/

/-- Helper: splitting a `2^(n+k)` remainder into a low part and a
middle digit. -/
theorem digit_split (a n k : Nat) :
    a % 2 ^ (n + k) = a % 2 ^ n + 2 ^ n * (a / 2 ^ n % 2 ^ k) := by
  rw [pow_add, Nat.mod_mul]

/-- Helper: segments 2..7 of a v6 value assemble its low 96 bits. -/
theorem segsum (a : Nat) :
    v6seg a 2 * 2 ^ 80 + v6seg a 3 * 2 ^ 64 + v6seg a 4 * 2 ^ 48 + v6seg a 5 * 2 ^ 32 +
      v6seg a 6 * 2 ^ 16 + v6seg a 7 = a % 2 ^ 96 := by
  have h80 := digit_split a 80 16
  have h64 := digit_split a 64 16
  have h48 := digit_split a 48 16
  have h32 := digit_split a 32 16
  have h16 := digit_split a 16 16
  simp only [v6seg, Nat.shiftRight_eq_div_pow]
  norm_num at h80 h64 h48 h32 h16 ⊢
  omega

/-- Helper: when the zone condition holds, the rebuilt gateway has the
bits of the original except bits 96..111 (bytes 2-3), which are 0. -/
theorem fix_v6_gateway_testBit (a : Nat) (ha : a < 2 ^ 128)
    (hc : v6seg a 0 = 0xfe80 ∨ (v6oct a 0 = 0xff ∧ (v6oct a 1 % 16 = 1 ∨ v6oct a 1 % 16 = 2))) :
    ∀ i, (fix_v6_gateway a).testBit i =
      (a.testBit i && !(decide (96 ≤ i) && decide (i < 112))) := by
  intro i
  rw [fix_v6_gateway, if_pos hc]
  have hval : v6seg a 0 * 2 ^ 112 + 0 * 2 ^ 96 + v6seg a 2 * 2 ^ 80 + v6seg a 3 * 2 ^ 64 +
      v6seg a 4 * 2 ^ 48 + v6seg a 5 * 2 ^ 32 + v6seg a 6 * 2 ^ 16 + v6seg a 7
      = 2 ^ 112 * v6seg a 0 + a % 2 ^ 96 := by
    have hs := segsum a
    omega
  rw [hval]
  have hlow : a % 2 ^ 96 < 2 ^ 112 :=
    lt_of_lt_of_le (Nat.mod_lt _ (by norm_num)) (by norm_num)
  rw [Nat.testBit_mul_pow_two_add _ hlow i]
  by_cases hi : i < 112
  · rw [if_pos hi]
    by_cases hi2 : i < 96
    · have h96 : ¬ 96 ≤ i := by omega
      rw [Nat.testBit_mod_two_pow]
      simp [hi2, h96]
    · have h96 : 96 ≤ i := by omega
      have hz : (a % 2 ^ 96).testBit i = false :=
        Nat.testBit_lt_two_pow
          (lt_of_lt_of_le (Nat.mod_lt _ (by norm_num))
            (Nat.pow_le_pow_right (by norm_num) h96))
      rw [hz]
      simp [h96, hi]
  · rw [if_neg hi]
    have hseg : v6seg a 0 = a >>> 112 % 2 ^ 16 := by
      simp [v6seg]
    rw [hseg, Nat.testBit_mod_two_pow, Nat.testBit_shiftRight]
    by_cases hi3 : i < 128
    · have h16 : i - 112 < 16 := by omega
      have h112 : 112 + (i - 112) = i := by omega
      have h96 : 96 ≤ i := by omega
      have h112b : ¬ i < 112 := by omega
      simp [h16, h112, h96, h112b]
    · have hfa : a.testBit i = false :=
        Nat.testBit_lt_two_pow
          (lt_of_lt_of_le ha (Nat.pow_le_pow_right (by norm_num) (by omega)))
      have h16 : ¬ (i - 112 < 16) := by omega
      simp [h16, hfa]

/-- Counterexample for C5 as stated: the parsed gateway `fe81:1234::`
lies inside fe80::/10 (its top 10 bits are 0b1111111010) and has
nonzero bytes 2-3, yet `message_to_route` returns it unmodified — the
source only strips the zone id when the first segment is exactly
0xfe80. -/
theorem C5_counterexample :
    message_to_route ⟨3, 5⟩ c5msg =
      some (some ⟨IpAddr.v4 0x0A000001, 32, some (IpAddr.v6 c5gw), some 5⟩) ∧
    c5gw >>> 118 = 0x3FA ∧
    v6oct c5gw 2 = 0x12 ∧ v6oct c5gw 3 = 0x34 :=
  ⟨by decide, by decide, by decide, by decide⟩

/-- Claim C5, amended: for every decoded gateway that is an IPv6
address whose first segment is exactly 0xfe80 (fe80::/16 — not all of
fe80::/10), or an IPv6 multicast address (first octet 0xff) with
interface-local or link-local scope (scope nibble 1 or 2), bytes 2-3
(bits 96..111) of the gateway are zeroed and all other bits preserved;
every other gateway address is returned unmodified. -/
theorem C5_gateway_zone_strip (a : Nat) (ha : a < 2 ^ 128) :
    ((v6seg a 0 = 0xfe80 ∨ (v6oct a 0 = 0xff ∧ (v6oct a 1 % 16 = 1 ∨ v6oct a 1 % 16 = 2))) →
      ∀ i, (fix_v6_gateway a).testBit i =
        (a.testBit i && !(decide (96 ≤ i) && decide (i < 112)))) ∧
    ((¬ (v6seg a 0 = 0xfe80 ∨ (v6oct a 0 = 0xff ∧ (v6oct a 1 % 16 = 1 ∨ v6oct a 1 % 16 = 2)))) →
      fix_v6_gateway a = a) := by
  constructor
  · exact fix_v6_gateway_testBit a ha
  · intro hc
    rw [fix_v6_gateway, if_neg hc]

/-- Witness for C5 (amended): the link-local gateway `c5llgw`
(first segment 0xfe80, zone id 5 in bytes 2-3) satisfies the
hypotheses, and bit 100 (inside bytes 2-3) of the fixed-up gateway is
cleared as the amended claim states. -/
theorem C5_gateway_zone_strip_witness :
    c5llgw < 2 ^ 128 ∧ v6seg c5llgw 0 = 0xfe80 ∧
    (fix_v6_gateway c5llgw).testBit 100 =
      (c5llgw.testBit 100 && !(decide (96 ≤ 100) && decide (100 < 112))) :=
  ⟨by norm_num [c5llgw], by decide,
    (C5_gateway_zone_strip c5llgw (by norm_num [c5llgw])).1 (Or.inl (by decide)) 100⟩

/-! #### Claim C4 -/

/-- Definitional unfolding of `sa_len` on a constructed view. -/
theorem SockaddrView.sa_len_mk (l : List Nat) :
    (SockaddrView.mk l).sa_len = l.getD 0 0 := rfl

set_option maxRecDepth 8000 in
/-- Counterexample for C4 as stated: with the `RTAX_DST` bit set and an
empty body, the walk reads no sockaddr and does not advance (the source
skips a set bit when fewer than `sizeof(sockaddr)` bytes remain), while
the claimed procedure records an entry and advances 4 bytes; and with a
single sockaddr of `sa_len = 255` the walk advances 0 bytes (the `u8`
round-up `((255 - 1) | 3) + 1` overflows to 0; a debug build panics)
instead of the claimed 256. -/
theorem C4_counterexample :
    (1 &&& (1 <<< RTAX_DST) ≠ 0) ∧
    get_rtaddrs 1 c4shortMsg = some (List.replicate 8 none, 0) ∧
    (get_rtaddrs_spec 1 c4shortMsg).2 = 4 ∧
    (get_rtaddrs_spec 1 c4shortMsg).1.getD 0 none = some (SockaddrView.mk []) ∧
    (get_rtaddrs 1 c4wrapMsg).map Prod.snd = some 0 ∧
    (get_rtaddrs_spec 1 c4wrapMsg).2 = 256 :=
  ⟨by decide, by decide, by decide, by decide, by decide, by decide⟩

/-- Helper: under the benign-walk condition the source walk agrees with
the spec-side walk, index list generalised. -/
theorem rtaddrs_go_ok_eq (a : Nat) (msg : List Nat) :
    ∀ (idxs : List Nat) (tbl : List (Option SockaddrView)) (pos : Nat),
      rtaddrs_ok_go a msg idxs pos = true →
      get_rtaddrs_go a msg idxs tbl pos = some (get_rtaddrs_spec_go a msg idxs tbl pos) := by
  intro idxs
  induction idxs with
  | nil => intro tbl pos h; rfl
  | cons idx rest ih =>
    intro tbl pos h
    by_cases hb : a &&& (1 <<< idx) ≠ 0
    · rw [rtaddrs_ok_go, if_pos hb] at h
      simp only [Bool.and_eq_true, Bool.or_eq_true, decide_eq_true_eq] at h
      obtain ⟨⟨⟨h1, h2⟩, h3⟩, hrec⟩ := h
      rw [get_rtaddrs_go, if_pos hb, if_neg (by omega),
        if_neg (by rw [SockaddrView.sa_len_mk]; omega)]
      rw [get_rtaddrs_spec_go, if_pos hb]
      have hadv : alignedLen ((msg.drop pos).getD 0 0)
          = (if (msg.drop pos).getD 0 0 = 0 then 4
             else ((((msg.drop pos).getD 0 0) - 1 ||| 3) + 1)) := by
        rw [alignedLen]
        rcases h3 with h3 | h3
        · rw [if_pos h3, if_pos h3]
        · by_cases h0 : (msg.drop pos).getD 0 0 = 0
          · rw [if_pos h0, if_pos h0]
          · rw [if_neg h0, if_neg h0, Nat.mod_eq_of_lt h3]
      simp only [SockaddrView.sa_len_mk]
      rw [← hadv]
      exact ih _ _ hrec
    · rw [rtaddrs_ok_go, if_neg hb] at h
      rw [get_rtaddrs_go, if_neg hb, get_rtaddrs_spec_go, if_neg hb]
      exact ih _ _ h

/-- Claim C4, amended: the sockaddr table is built by iterating the bit
indices 0..RTAX_MAX of `rtm_addrs`; for each set bit, provided at least
`sizeof(sockaddr)` (16) bytes remain at the current offset (otherwise
the entry is skipped and the offset unchanged), `sa_len` does not
exceed the remaining bytes (otherwise an assertion panics), and the
4-byte rounded-up advance fits in a `u8` (otherwise it overflows), a
sockaddr is read at the current offset and the offset then advances by
`((sa_len - 1) | 3) + 1` bytes when `sa_len` is non-zero and by exactly
4 bytes when `sa_len == 0` — i.e. the walk then computes exactly the
procedure the claim describes. -/
theorem C4_sockaddr_walk (a : Nat) (msg : List Nat) (h : rtaddrs_ok a msg = true) :
    get_rtaddrs a msg = some (get_rtaddrs_spec a msg) :=
  rtaddrs_go_ok_eq a msg _ _ _ h

/-- Witness for C4 (amended): a body of two well-formed 16-byte
sockaddrs satisfies the benign-walk condition and the walk equals the
claimed procedure on it. -/
theorem C4_sockaddr_walk_witness :
    rtaddrs_ok 5 c4okMsg = true ∧
    get_rtaddrs 5 c4okMsg = some (get_rtaddrs_spec 5 c4okMsg) :=
  ⟨by decide, C4_sockaddr_walk 5 c4okMsg (by decide)⟩

end NetRoute

namespace NetRoute

/-! ### Theorems -/

/-- Helper: bit characterisation of `(2^w - 1).checked_shl (w - p)` with
`unwrap_or 0`, the shape of both arms of `Route.mask`. -/
theorem maskBits_testBit (w p i : Nat) (hp : p ≤ w)
    (m : Nat)
    (hm : m = (if w - p < w then some (((2 ^ w - 1) <<< (w - p)) % 2 ^ w) else none).getD 0) :
    (m.testBit i = true) ↔ (w - p ≤ i ∧ i < w) := by
  by_cases h : w - p < w
  · subst hm
    simp only [h, if_pos, Option.getD_some]
    rw [Nat.testBit_mod_two_pow, Nat.testBit_shiftLeft, Nat.testBit_two_pow_sub_one]
    simp only [Bool.and_eq_true, decide_eq_true_eq, ge_iff_le]
    omega
  · -- `w - p ≥ w` can only happen when `p = 0` (or `w = 0`): the shift is
    -- out of range, `checked_shl` is `none`, and `unwrap_or` gives 0.
    subst hm
    simp only [if_neg h, Option.getD_none, Nat.zero_testBit]
    constructor
    · intro hfalse; exact absurd hfalse (by simp)
    · rintro ⟨h1, h2⟩
      exact absurd h2 (by omega)

/-- Claim C1: for every `Route` whose destination family has bit width w
and whose prefix p satisfies 0 ≤ p ≤ w, `mask()` returns an address of
the same family whose high p bits are 1 and whose remaining w - p bits
are 0 (p = 0 gives all-zeros, p = w all-ones, with no undefined shift at
p = 0), and the concrete values listed in the spec hold: IPv4 prefix 32
gives 255.255.255.255, 29 gives 255.255.255.248, 25 gives
255.255.255.128, 2 gives 192.0.0.0, 0 gives 0.0.0.0, and IPv6 prefix 32
gives ffff:ffff::. -/
theorem C1_mask_netmask (r : Route) (hp : r.prefixLen ≤ r.destination.width) :
    (r.mask.sameFamily r.destination = true ∧
      ∀ i, (r.mask.num.testBit i = true) ↔
        (r.destination.width - r.prefixLen ≤ i ∧ i < r.destination.width)) ∧
    (Route.mk (.v4 0x0A0A0000) 32 none none).mask = .v4 0xFFFFFFFF ∧
    (Route.mk (.v4 0x0A0A0000) 29 none none).mask = .v4 0xFFFFFFF8 ∧
    (Route.mk (.v4 0x0A0A0000) 25 none none).mask = .v4 0xFFFFFF80 ∧
    (Route.mk (.v4 0x0A0A0000) 2 none none).mask = .v4 0xC0000000 ∧
    (Route.mk (.v4 0x0A0A0000) 0 none none).mask = .v4 0 ∧
    (Route.mk (.v6 0x77ca838b9ec0fc97eedc236a9d4131e5) 32 none none).mask
      = .v6 0xffffffff000000000000000000000000 := by
  refine ⟨⟨?_, ?_⟩, by decide, by decide, by decide, by decide, by decide, by decide⟩
  · cases h : r.destination <;> simp [Route.mask, h, IpAddr.sameFamily]
  · intro i
    cases h : r.destination with
    | v4 a =>
      rw [h] at hp
      simp only [IpAddr.width] at hp ⊢
      exact maskBits_testBit 32 r.prefixLen i hp _
        (by simp [Route.mask, h, IpAddr.num, u32_checked_shl])
    | v6 a =>
      rw [h] at hp
      simp only [IpAddr.width] at hp ⊢
      exact maskBits_testBit 128 r.prefixLen i hp _
        (by simp [Route.mask, h, IpAddr.num, u128_checked_shl])

/-- Witness for C1: prefix 29 over IPv4 satisfies the hypothesis
`29 ≤ 32`, and bit 5 of the produced mask (255.255.255.248) is 1. -/
theorem C1_mask_netmask_witness :
    (Route.mk (.v4 0x0A0A0000) 29 none none).prefixLen
        ≤ (Route.mk (.v4 0x0A0A0000) 29 none none).destination.width ∧
    (Route.mk (.v4 0x0A0A0000) 29 none none).mask.num.testBit 5 = true :=
  ⟨by decide,
    ((C1_mask_netmask (Route.mk (.v4 0x0A0A0000) 29 none none) (by decide)).1.2 5).mpr
      (by decide)⟩

/-! #### Claim C2 -/

/-- Counterexample for C2 as stated: macOS `default_route` returns a
route with no gateway at all (the filter only rejects `Some(0.0.0.0)`
and `Some(::)`), and Linux `default_route` returns a route with prefix
7 and no gateway (its predicate only checks that the message has no
destination attribute). -/
theorem C2_counterexample :
    macos_default_route [c2macRoute] = some c2macRoute ∧
    c2macRoute.destination = IpAddr.v4 0 ∧
    c2macRoute.prefixLen = 0 ∧
    c2macRoute.gateway = none ∧
    linux_default_route [c2linuxMsg] [] =
      some (some ⟨IpAddr.v4 0, 7, none, 0, none, none, none, 254⟩) :=
  ⟨rfl, rfl, rfl, rfl, rfl⟩

/-- Helper: membership is preserved by stable insertion. -/
theorem mem_insertSortedBy {α : Type} (le : α → α → Bool) (a b : α) :
    ∀ l : List α, b ∈ insertSortedBy le a l ↔ b = a ∨ b ∈ l := by
  intro l
  induction l with
  | nil => simp [insertSortedBy]
  | cons c l ih =>
    simp only [insertSortedBy]
    by_cases h : le a c = true
    · simp [h]
    · simp only [if_neg h, List.mem_cons, ih]
      tauto

/-- Helper: membership is preserved by the stable sort. -/
theorem mem_sortBy {α : Type} (le : α → α → Bool) (b : α) :
    ∀ l : List α, b ∈ sortBy le l ↔ b ∈ l := by
  intro l
  induction l with
  | nil => simp [sortBy]
  | cons c l ih => simp [sortBy, mem_insertSortedBy, ih]

/-- Helper: the head of a list is a member. -/
theorem mem_of_head?_eq_some {α : Type} {l : List α} {a : α} (h : l.head? = some a) :
    a ∈ l := by
  cases l with
  | nil => cases h
  | cons b l => simp only [List.head?_cons, Option.some.injEq] at h; simp [h]

/-- Helper: unpacking the macOS/Windows default-route filter. -/
theorem macos_default_route_pred_spec (r : Route) (h : macos_default_route_pred r = true) :
    (r.destination = IpAddr.v4 0 ∨ r.destination = IpAddr.v6 0) ∧ r.prefixLen = 0 ∧
      r.gateway ≠ some (IpAddr.v4 0) ∧ r.gateway ≠ some (IpAddr.v6 0) := by
  simp only [macos_default_route_pred, Bool.and_eq_true, Bool.or_eq_true, beq_iff_eq,
    Bool.not_eq_true', beq_eq_false_iff_ne] at h
  exact ⟨h.1.1.1, h.1.1.2, h.1.2, h.2⟩

/-- Helper: unpacking the Windows default-route filter. -/
theorem windows_default_route_pred_spec (r : WinRoute)
    (h : windows_default_route_pred r = true) :
    (r.destination = IpAddr.v4 0 ∨ r.destination = IpAddr.v6 0) ∧ r.prefixLen = 0 ∧
      r.gateway ≠ some (IpAddr.v4 0) ∧ r.gateway ≠ some (IpAddr.v6 0) := by
  simp only [windows_default_route_pred, Bool.and_eq_true, Bool.or_eq_true, beq_iff_eq,
    Bool.not_eq_true', beq_eq_false_iff_ne] at h
  exact ⟨h.1.1.1, h.1.1.2, h.1.2, h.2⟩

/-- Helper: when the destination slot starts empty and every
destination attribute decodes to no IP, the fold leaves it empty. -/
theorem foldl_destination_none (attrs : List RouteAttr)
    (h : ∀ ad, RouteAttr.destination ad ∈ attrs → addr_to_ip ad = none) :
    ∀ st : LinuxAcc, st.destination = none →
      (attrs.foldl linux_step st).destination = none := by
  induction attrs with
  | nil => intro st hst; exact hst
  | cons a attrs ih =>
    intro st hst
    have h' : ∀ ad, RouteAttr.destination ad ∈ attrs → addr_to_ip ad = none := by
      intro ad had; exact h ad (List.mem_cons_of_mem _ had)
    cases a with
    | destination ad =>
      exact ih h' _ (h ad (List.mem_cons_self _ _))
    | source ad => exact ih h' _ hst
    | prefSource ad => exact ih h' _ hst
    | gateway ad => exact ih h' _ hst
    | oif i => exact ih h' _ hst
    | otherAttr => exact ih h' _ hst

/-- Helper: `destination_prefix() == None` means every destination
attribute decodes to no IP. -/
theorem destinationPrefixAttr_none (msg : RouteMessage)
    (h : destinationPrefixAttr msg = none) :
    ∀ ad, RouteAttr.destination ad ∈ msg.attributes → addr_to_ip ad = none := by
  intro ad had
  have h2 : ∀ attr ∈ msg.attributes,
      (match attr with
       | RouteAttr.destination a =>
         (addr_to_ip a).map (fun ip => (ip, msg.header.destination_prefix_length))
       | _ => none) = none := by
    rw [← List.filterMap_eq_nil, ← List.head?_eq_none_iff]
    exact h
  have h3 := h2 (RouteAttr.destination ad) had
  simp only at h3
  exact Option.map_eq_none'.mp h3

/-- Helper: a message with no decodeable destination attribute converts
to a route whose destination is the unspecified address of the header's
family. -/
theorem routeMessageToRoute_unspec (msg : RouteMessage) (r : LinuxRoute)
    (hd : destinationPrefixAttr msg = none)
    (hc : routeMessageToRoute msg = some r) :
    r.destination = IpAddr.v4 0 ∨ r.destination = IpAddr.v6 0 := by
  have hacc : (msg.attributes.foldl linux_step ⟨none, none, none, none, none⟩).destination
      = none :=
    foldl_destination_none msg.attributes (destinationPrefixAttr_none msg hd) _ rfl
  unfold routeMessageToRoute at hc
  rw [hacc] at hc
  cases hf : msg.header.address_family with
  | inet =>
    rw [hf] at hc
    simp only [Option.some.injEq] at hc
    left; rw [← hc]
  | inet6 =>
    rw [hf] at hc
    simp only [Option.some.injEq] at hc
    right; rw [← hc]
  | otherFam => rw [hf] at hc; cases hc

/-- Helper: the default-route scan only returns routes converted from a
message with no decodeable destination attribute. -/
theorem linux_default_route_scan_unspec :
    ∀ (dump : List RouteMessage) (r : LinuxRoute),
      linux_default_route_scan dump = some (some r) →
      r.destination = IpAddr.v4 0 ∨ r.destination = IpAddr.v6 0 := by
  intro dump
  induction dump with
  | nil => intro r h; cases h
  | cons msg rest ih =>
    intro r h
    unfold linux_default_route_scan at h
    by_cases hd : destinationPrefixAttr msg = none
    · rw [if_pos hd] at h
      cases hc : routeMessageToRoute msg with
      | none => rw [hc] at h; cases h
      | some r' =>
        rw [hc] at h
        simp only [Option.some.injEq] at h
        subst h
        exact routeMessageToRoute_unspec msg _ hd hc
    · rw [if_neg hd] at h
      exact ih r h

/-- Claim C2, amended: any route returned by `default_route` has the
unspecified destination of its family on all three backends; on macOS
and Windows its prefix is 0 and its gateway, when present, is not the
unspecified address — but the gateway may be absent; on Linux only the
absence of a destination attribute is checked, so the prefix equals the
message's header prefix length and the gateway is unconstrained. -/
theorem C2_default_route_shape :
    (∀ (routes : List Route) (r : Route), macos_default_route routes = some r →
      (r.destination = IpAddr.v4 0 ∨ r.destination = IpAddr.v6 0) ∧ r.prefixLen = 0 ∧
        r.gateway ≠ some (IpAddr.v4 0) ∧ r.gateway ≠ some (IpAddr.v6 0)) ∧
    (∀ (routes : List WinRoute) (r : WinRoute), windows_default_route routes = some r →
      (r.destination = IpAddr.v4 0 ∨ r.destination = IpAddr.v6 0) ∧ r.prefixLen = 0 ∧
        r.gateway ≠ some (IpAddr.v4 0) ∧ r.gateway ≠ some (IpAddr.v6 0)) ∧
    (∀ (v4dump v6dump : List RouteMessage) (r : LinuxRoute),
      linux_default_route v4dump v6dump = some (some r) →
      (r.destination = IpAddr.v4 0 ∨ r.destination = IpAddr.v6 0)) := by
  refine ⟨?_, ?_, ?_⟩
  · intro routes r h
    exact macos_default_route_pred_spec r (List.find?_some h)
  · intro routes r h
    have hmem : r ∈ sortBy (fun a b => optNatLe a.metric b.metric)
        (routes.filter windows_default_route_pred) := mem_of_head?_eq_some h
    rw [mem_sortBy] at hmem
    exact windows_default_route_pred_spec r (List.mem_filter.mp hmem).2
  · intro v4dump v6dump r h
    unfold linux_default_route at h
    cases h4 : linux_default_route_scan v4dump with
    | none => rw [h4] at h; cases h
    | some o =>
      cases o with
      | none =>
        rw [h4] at h
        exact linux_default_route_scan_unspec v6dump r h
      | some r' =>
        rw [h4] at h
        simp only [Option.some.injEq] at h
        subst h
        exact linux_default_route_scan_unspec v4dump _ h4

/-- Witness for C2 (amended): a well-formed default route is returned
by the macOS filter and satisfies the amended shape. -/
theorem C2_default_route_shape_witness :
    macos_default_route [c2goodRoute] = some c2goodRoute ∧
    ((c2goodRoute.destination = IpAddr.v4 0 ∨ c2goodRoute.destination = IpAddr.v6 0) ∧
      c2goodRoute.prefixLen = 0 ∧
      c2goodRoute.gateway ≠ some (IpAddr.v4 0) ∧ c2goodRoute.gateway ≠ some (IpAddr.v6 0)) :=
  ⟨by decide, C2_default_route_shape.1 [c2goodRoute] c2goodRoute (by decide)⟩

/-! #### Claim C6 -/

/-- Helper: length of an encoded `sockaddr_in`. -/
theorem sockaddr_in_bytes_length (a : Nat) : (sockaddr_in_bytes a).length = 16 := by
  simp [sockaddr_in_bytes, octets4]

/-- Helper: length of an encoded `sockaddr_in6`. -/
theorem sockaddr_in6_bytes_length (a : Nat) : (sockaddr_in6_bytes a).length = 28 := by
  simp [sockaddr_in6_bytes, octets16, octets4]

/-- Helper: length of an encoded `sockaddr_dl`. -/
theorem sockaddr_dl_bytes_length (i : Nat) : (sockaddr_dl_bytes i).length = 20 := by
  simp [sockaddr_dl_bytes]

/-- Helper: an encoded sockaddr is at most 28 bytes. -/
theorem ipSockaddrBytes_length_le (x : IpAddr) : (ipSockaddrBytes x).length ≤ 28 := by
  cases x <;>
    simp [ipSockaddrBytes, sockaddr_in_bytes_length, sockaddr_in6_bytes_length]

/-- Helper: an in-bounds write preserves the buffer length. -/
theorem writeAt_length (buf : List Nat) (off : Nat) (b : List Nat)
    (h : off + b.length ≤ buf.length) :
    (writeAt buf off b).length = buf.length := by
  simp only [writeAt, List.length_append, List.length_take, List.length_drop]
  omega

/-- Helper: taking up to the end of an in-bounds write yields the
earlier prefix followed by the written bytes. -/
theorem writeAt_take (buf : List Nat) (off : Nat) (b : List Nat)
    (h : off + b.length ≤ buf.length) :
    (writeAt buf off b).take (off + b.length) = buf.take off ++ b := by
  have h1 : (buf.take off).length = off := by
    rw [List.length_take]; omega
  calc (writeAt buf off b).take (off + b.length)
      = (buf.take off ++ (b ++ buf.drop (off + b.length))).take
          ((buf.take off).length + b.length) := by
        rw [writeAt, List.append_assoc, h1]
    _ = buf.take off ++ (b ++ buf.drop (off + b.length)).take b.length :=
        List.take_append b.length
    _ = buf.take off ++ b := by rw [List.take_left]

/-- Helper: the degenerate first write at offset 0. -/
theorem writeAt_take_zero (buf : List Nat) (b : List Nat) (h : b.length ≤ buf.length) :
    (writeAt buf 0 b).take b.length = b := by
  have h2 := writeAt_take buf 0 b (by omega)
  simpa using h2

/-- Helper: the attribute block of an encoded request is exactly the
ordered concatenation destination ++ gateway? ++ sockaddr_dl? ++
netmask. -/
theorem add_or_del_route_msg_attrs (dst dst_mask : IpAddr) (gateway : Option IpAddr)
    (ifindex : Option Nat) (add : Bool) :
    (add_or_del_route_msg dst dst_mask gateway ifindex add).attrs.take
        (add_or_del_route_msg dst dst_mask gateway ifindex add).attr_offset =
      ipSockaddrBytes dst ++ (gateway.elim [] ipSockaddrBytes) ++
        (ifindex.elim [] sockaddr_dl_bytes) ++ ipSockaddrBytes dst_mask := by
  have hd := ipSockaddrBytes_length_le dst
  have hm := ipSockaddrBytes_length_le dst_mask
  have hinit : (List.replicate 128 (0 : Nat)).length = 128 := by simp
  rcases gateway with _ | g <;> rcases ifindex with _ | i
  · -- no gateway, no ifindex
    simp only [add_or_del_route_msg, Option.elim]
    have hl1 : (writeAt (List.replicate 128 0) 0 (ipSockaddrBytes dst)).length = 128 := by
      rw [writeAt_length] <;> omega
    rw [writeAt_take _ _ _ (by omega), writeAt_take_zero _ _ (by omega)]
    all_goals simp
  · -- no gateway, ifindex
    have hdl := sockaddr_dl_bytes_length i
    simp only [add_or_del_route_msg, Option.elim]
    have hl1 : (writeAt (List.replicate 128 0) 0 (ipSockaddrBytes dst)).length = 128 := by
      rw [writeAt_length] <;> omega
    have hl2 : (writeAt (writeAt (List.replicate 128 0) 0 (ipSockaddrBytes dst))
        (ipSockaddrBytes dst).length (sockaddr_dl_bytes i)).length = 128 := by
      rw [writeAt_length] <;> omega
    rw [writeAt_take _ _ _ (by omega), writeAt_take _ _ _ (by omega),
      writeAt_take_zero _ _ (by omega)]
    all_goals simp
  · -- gateway, no ifindex
    have hg := ipSockaddrBytes_length_le g
    simp only [add_or_del_route_msg, Option.elim]
    have hl1 : (writeAt (List.replicate 128 0) 0 (ipSockaddrBytes dst)).length = 128 := by
      rw [writeAt_length] <;> omega
    have hl2 : (writeAt (writeAt (List.replicate 128 0) 0 (ipSockaddrBytes dst))
        (ipSockaddrBytes dst).length (ipSockaddrBytes g)).length = 128 := by
      rw [writeAt_length] <;> omega
    rw [writeAt_take _ _ _ (by omega), writeAt_take _ _ _ (by omega),
      writeAt_take_zero _ _ (by omega)]
    all_goals simp
  · -- gateway and ifindex
    have hg := ipSockaddrBytes_length_le g
    have hdl := sockaddr_dl_bytes_length i
    simp only [add_or_del_route_msg, Option.elim]
    have hl1 : (writeAt (List.replicate 128 0) 0 (ipSockaddrBytes dst)).length = 128 := by
      rw [writeAt_length] <;> omega
    have hl2 : (writeAt (writeAt (List.replicate 128 0) 0 (ipSockaddrBytes dst))
        (ipSockaddrBytes dst).length (ipSockaddrBytes g)).length = 128 := by
      rw [writeAt_length] <;> omega
    have hl3 : (writeAt (writeAt (writeAt (List.replicate 128 0) 0 (ipSockaddrBytes dst))
        (ipSockaddrBytes dst).length (ipSockaddrBytes g))
        ((ipSockaddrBytes dst).length + (ipSockaddrBytes g).length)
        (sockaddr_dl_bytes i)).length = 128 := by
      rw [writeAt_length] <;> omega
    rw [writeAt_take _ _ _ (by omega), writeAt_take _ _ _ (by omega),
      writeAt_take _ _ _ (by omega), writeAt_take_zero _ _ (by omega)]
    all_goals simp

/-- Claim C6: for every macOS add or delete request, the header flags
are `RTF_STATIC | RTF_UP`, with `RTF_GATEWAY` added exactly when a
gateway is specified or the operation is a delete; `rtm_addrs` is
`RTA_DST | RTA_NETMASK`, with `RTA_GATEWAY` added only on add; the
attribute block contains, in this order, the destination sockaddr, the
gateway sockaddr (if any), a `sockaddr_dl` carrying the interface
index (if any), and the netmask sockaddr; and `rtm_msglen` equals the
`rt_msghdr` size plus the total attribute bytes. -/
theorem C6_request_encoding (dst dst_mask : IpAddr) (gateway : Option IpAddr)
    (ifindex : Option Nat) (add : Bool) (hif : ∀ i, ifindex = some i → i < 65536) :
    (add_or_del_route_msg dst dst_mask gateway ifindex add).rtm_flags =
      (if gateway.isSome || !add then RTF_STATIC ||| RTF_UP ||| RTF_GATEWAY
       else RTF_STATIC ||| RTF_UP) ∧
    (add_or_del_route_msg dst dst_mask gateway ifindex add).rtm_addrs =
      (if add then RTA_DST ||| RTA_NETMASK ||| RTA_GATEWAY
       else RTA_DST ||| RTA_NETMASK) ∧
    (add_or_del_route_msg dst dst_mask gateway ifindex add).attrs.take
        (add_or_del_route_msg dst dst_mask gateway ifindex add).attr_offset =
      ipSockaddrBytes dst ++ (gateway.elim [] ipSockaddrBytes) ++
        (ifindex.elim [] sockaddr_dl_bytes) ++ ipSockaddrBytes dst_mask ∧
    (add_or_del_route_msg dst dst_mask gateway ifindex add).rtm_msglen =
      sizeof_rt_msghdr + (add_or_del_route_msg dst dst_mask gateway ifindex add).attr_offset ∧
    (∀ i, ifindex = some i →
      (sockaddr_dl_bytes i).getD 2 0 + 256 * (sockaddr_dl_bytes i).getD 3 0 = i) := by
  refine ⟨?_, ?_, add_or_del_route_msg_attrs dst dst_mask gateway ifindex add, rfl, ?_⟩
  · cases add <;> rcases gateway with _ | g <;> simp [add_or_del_route_msg]
  · cases add <;> simp [add_or_del_route_msg]
  · intro i hi
    have h2 : (sockaddr_dl_bytes i).getD 2 0 = i % 256 := rfl
    have h3 : (sockaddr_dl_bytes i).getD 3 0 = i / 256 % 256 := rfl
    have hlt := hif i hi
    rw [h2, h3]
    omega

/-- Witness for C6: a concrete add request (destination 10.14.0.0,
netmask 255.255.255.0, gateway 192.1.2.1, ifindex 9) discharges the
ifindex bound and its attribute block is the claimed concatenation. -/
theorem C6_request_encoding_witness :
    (9 : Nat) < 65536 ∧
    (add_or_del_route_msg (IpAddr.v4 0x0A0E0000) (IpAddr.v4 0xFFFFFF00)
        (some (IpAddr.v4 0xC0010201)) (some 9) true).attrs.take
        (add_or_del_route_msg (IpAddr.v4 0x0A0E0000) (IpAddr.v4 0xFFFFFF00)
          (some (IpAddr.v4 0xC0010201)) (some 9) true).attr_offset =
      ipSockaddrBytes (IpAddr.v4 0x0A0E0000) ++
        ((some (IpAddr.v4 0xC0010201)).elim [] ipSockaddrBytes) ++
        ((some 9 : Option Nat).elim [] sockaddr_dl_bytes) ++
        ipSockaddrBytes (IpAddr.v4 0xFFFFFF00) :=
  ⟨by decide,
    (C6_request_encoding (IpAddr.v4 0x0A0E0000) (IpAddr.v4 0xFFFFFF00)
      (some (IpAddr.v4 0xC0010201)) (some 9) true
      (fun i hi => by cases hi; decide)).2.2.1⟩

/-! #### Claim C7 -/

/-- Counterexample for C7 as stated: Windows maps code 87
(ERROR_INVALID_PARAMETER) to `InvalidInput`, not `Other`; and macOS
maps the actual `ENOBUFS` value 55 to `Other` — the arm the source
comments "ENOBUFS" tests the literal 3436, which is not a macOS errno. -/
theorem C7_counterexample :
    (windows_code_to_error 87).kind = ErrKind.invalidInput ∧
    ErrKind.invalidInput ≠ ErrKind.other ∧
    (macos_code_to_error ENOBUFS_darwin).kind = ErrKind.other ∧
    ErrKind.other ≠ ErrKind.outOfMemory ∧
    (macos_code_to_error 3436).kind = ErrKind.outOfMemory :=
  ⟨by decide, by decide, by decide, by decide, by decide⟩

/-- Claim C7, amended: macOS maps `rtm_errno` 17 (EEXIST) to
AlreadyExists, 3 (ESRCH) to NotFound and the literal 3436 (commented
"ENOBUFS", though macOS ENOBUFS is 55) to OutOfMemory; Windows maps 2
and 1168 to NotFound, 5 to PermissionDenied, 87 to InvalidInput and
5010 to AlreadyExists; every other code maps to Other; and the numeric
code is included in the error message in all cases. -/
theorem C7_code_mapping (e : Int) (c : Nat)
    (hm : e ≠ 17 ∧ e ≠ 3 ∧ e ≠ 3436)
    (hw : c ≠ 2 ∧ c ≠ 5 ∧ c ≠ 87 ∧ c ≠ 5010 ∧ c ≠ 1168) :
    macos_code_to_error 17 = ⟨ErrKind.alreadyExists, 17⟩ ∧
    macos_code_to_error 3 = ⟨ErrKind.notFound, 3⟩ ∧
    macos_code_to_error 3436 = ⟨ErrKind.outOfMemory, 3436⟩ ∧
    (macos_code_to_error e).kind = ErrKind.other ∧
    (macos_code_to_error e).code = e ∧
    windows_code_to_error 2 = ⟨ErrKind.notFound, 2⟩ ∧
    windows_code_to_error 1168 = ⟨ErrKind.notFound, 1168⟩ ∧
    windows_code_to_error 5 = ⟨ErrKind.permissionDenied, 5⟩ ∧
    windows_code_to_error 87 = ⟨ErrKind.invalidInput, 87⟩ ∧
    windows_code_to_error 5010 = ⟨ErrKind.alreadyExists, 5010⟩ ∧
    (windows_code_to_error c).kind = ErrKind.other ∧
    (windows_code_to_error c).code = (c : Int) := by
  obtain ⟨hm1, hm2, hm3⟩ := hm
  obtain ⟨hw1, hw2, hw3, hw4, hw5⟩ := hw
  refine ⟨by decide, by decide, by decide, ?_, rfl, by decide, by decide, by decide,
    by decide, by decide, ?_, rfl⟩
  · simp [macos_code_to_error, hm1, hm2, hm3]
  · simp [windows_code_to_error, hw1, hw2, hw3, hw4, hw5]

/-- Witness for C7 (amended): code 99 is outside both mapped sets and
maps to Other on both backends. -/
theorem C7_code_mapping_witness :
    ((99 : Int) ≠ 17 ∧ (99 : Int) ≠ 3 ∧ (99 : Int) ≠ 3436) ∧
    ((99 : Nat) ≠ 2 ∧ (99 : Nat) ≠ 5 ∧ (99 : Nat) ≠ 87 ∧ (99 : Nat) ≠ 5010 ∧
      (99 : Nat) ≠ 1168) ∧
    (macos_code_to_error 99).kind = ErrKind.other ∧
    (windows_code_to_error 99).kind = ErrKind.other :=
  ⟨by decide, by decide,
    (C7_code_mapping 99 99 (by decide) (by decide)).2.2.2.1,
    (C7_code_mapping 99 99 (by decide) (by decide)).2.2.2.2.2.2.2.2.2.2.1⟩

/-! #### Claim C8 -/

/-- Helper: when no dumped message's conversion panics, the delete scan
returns exactly the first message matching on destination and prefix. -/
theorem linux_delete_scan_find (route : LinuxRoute) :
    ∀ dump : List RouteMessage,
      dump.all (fun m => (routeMessageToRoute m).isSome) = true →
      linux_delete_scan route dump = some (dump.find? (linux_route_key_pred route)) := by
  intro dump
  induction dump with
  | nil => intro h; rfl
  | cons msg rest ih =>
    intro h
    rw [List.all_cons, Bool.and_eq_true] at h
    obtain ⟨h1, h2⟩ := h
    cases hc : routeMessageToRoute msg with
    | none => rw [hc] at h1; cases h1
    | some other =>
      rw [linux_delete_scan, List.find?_cons]
      simp only [hc]
      by_cases hmatch : other.destination = route.destination ∧
          other.prefixLen = route.prefixLen
      · rw [if_pos hmatch]
        have hpred : linux_route_key_pred route msg = true := by
          simp only [linux_route_key_pred, hc, Bool.and_eq_true, beq_iff_eq]
          exact ⟨hmatch.1, hmatch.2⟩
        rw [hpred]
      · rw [if_neg hmatch]
        have hpred : linux_route_key_pred route msg = false := by
          simp only [linux_route_key_pred, hc]
          rw [Bool.eq_false_iff]
          simp only [ne_eq, Bool.and_eq_true, beq_iff_eq]
          exact fun hcon => hmatch ⟨hcon.1, hcon.2⟩
        rw [hpred]
        exact ih h2

/-- Claim C8: on Linux, `delete` dumps the routes of the destination's
family, submits `RTM_DELROUTE` with the original message of the first
dumped entry whose destination and prefix both equal the argument's
(ignoring table, gateway and ifindex) and returns success, and returns
a NotFound error when no dumped entry matches. -/
theorem C8_linux_delete (route : LinuxRoute) (dump : List RouteMessage) (ok : Bool)
    (hconv : dump.all (fun m => (routeMessageToRoute m).isSome) = true) :
    (linux_delete_scan route dump = some (dump.find? (linux_route_key_pred route))) ∧
    (∀ msg, dump.find? (linux_route_key_pred route) = some msg →
      linux_delete_on route dump true = some (Except.ok msg)) ∧
    (dump.find? (linux_route_key_pred route) = none →
      linux_delete_on route dump ok = some (Except.error ⟨ErrKind.notFound, 0⟩)) ∧
    (∀ v4dump v6dump : List RouteMessage, linux_delete route v4dump v6dump ok =
      linux_delete_on route
        (match route.destination with
         | .v4 _ => v4dump
         | .v6 _ => v6dump) ok) ∧
    (∀ (msg : RouteMessage) (r' : LinuxRoute), routeMessageToRoute msg = some r' →
      (linux_route_key_pred route msg = true ↔
        (r'.destination = route.destination ∧ r'.prefixLen = route.prefixLen))) := by
  have hscan := linux_delete_scan_find route dump hconv
  refine ⟨hscan, ?_, ?_, fun _ _ => rfl, ?_⟩
  · intro msg hfind
    rw [linux_delete_on, hscan, hfind]
    rfl
  · intro hfind
    rw [linux_delete_on, hscan, hfind]
  · intro msg r' hr
    rw [linux_route_key_pred]
    simp [hr]

/-- Witness for C8: on a two-message dump whose conversions all
succeed, the scan returns the first (and only) matching message. -/
theorem C8_linux_delete_witness :
    [c8msgA, c8msgB].all (fun m => (routeMessageToRoute m).isSome) = true ∧
    linux_delete_scan c8route [c8msgA, c8msgB] =
      some ([c8msgA, c8msgB].find? (linux_route_key_pred c8route)) :=
  ⟨by decide, (C8_linux_delete c8route [c8msgA, c8msgB] true (by decide)).1⟩

/-! #### Claim C9 -/

/-- Claim C9: the fanout is a broadcast channel of capacity 16, and the
subscriber loop silently skips lagged gaps (no error item is yielded,
later events still appear), ends when the channel closes, and yields
exactly the events received before the first `Closed`, in order. -/
theorem C9_fanout :
    broadcast_capacity = 16 ∧
    (∀ (n : Nat) (rest : List RecvResult),
      route_listen_loop (RecvResult.lagged n :: rest) = route_listen_loop rest) ∧
    (∀ (ev : RouteChange) (rest : List RecvResult),
      route_listen_loop (RecvResult.ok ev :: rest) = ev :: route_listen_loop rest) ∧
    (∀ rest : List RecvResult, route_listen_loop (RecvResult.closed :: rest) = []) ∧
    (∀ trace : List RecvResult, route_listen_loop trace =
      (trace.takeWhile (fun x => !x.isClosed)).filterMap RecvResult.okEvent) := by
  refine ⟨rfl, fun n rest => rfl, fun ev rest => rfl, fun rest => rfl, ?_⟩
  intro trace
  induction trace with
  | nil => rfl
  | cons x rest ih =>
    cases x <;> simp [route_listen_loop, RecvResult.isClosed, RecvResult.okEvent,
      List.takeWhile_cons, ih]

/-! #### Claim C10 -/

/-- Helper: with the netmask bit clear, the computed prefix is the
destination family's width. -/
theorem netmaskPrefixLen_no_bit (hdr : RtMsgHdr) (tbl : List (Option SockaddrView))
    (destination : IpAddr) (h : hdr.rtm_addrs &&& (1 <<< RTAX_NETMASK) = 0) :
    netmaskPrefixLen hdr tbl destination = destination.width := by
  rw [netmaskPrefixLen, if_neg (by simp [h])]

/-- Claim C10: a record without the `RTAX_NETMASK` bit parses to a
route whose prefix is the full width of the destination family (a host
route), not prefix 0. -/
theorem C10_host_route (hdr : RtMsgHdr) (msg : List Nat) (r : Route)
    (hmask : hdr.rtm_addrs &&& (1 <<< RTAX_NETMASK) = 0)
    (hparse : message_to_route hdr msg = some (some r)) :
    r.prefixLen = r.destination.width := by
  rw [message_to_route] at hparse
  split at hparse
  · simp at hparse
  · split at hparse
    · cases hparse
    · split at hparse
      · cases hparse
      · split at hparse
        · cases hparse
        · simp at hparse
        · split at hparse
          · split at hparse
            · cases hparse
            · split at hparse
              · cases hparse
              · simp only [Option.some.injEq] at hparse
                subst hparse
                simp [netmaskPrefixLen_no_bit _ _ _ hmask]
          · simp only [Option.some.injEq] at hparse
            subst hparse
            simp [netmaskPrefixLen_no_bit _ _ _ hmask]

/-- Witness for C10: a record with only a destination sockaddr (no
netmask bit) parses to a host route with prefix 32. -/
theorem C10_host_route_witness :
    (RtMsgHdr.mk 1 9).rtm_addrs &&& (1 <<< RTAX_NETMASK) = 0 ∧
    message_to_route ⟨1, 9⟩ c10msg =
      some (some ⟨IpAddr.v4 0x0A000001, 32, none, some 9⟩) ∧
    (Route.mk (IpAddr.v4 0x0A000001) 32 none (some 9)).prefixLen =
      (Route.mk (IpAddr.v4 0x0A000001) 32 none (some 9)).destination.width :=
  ⟨by decide, by decide,
    C10_host_route ⟨1, 9⟩ c10msg _ (by decide) (by decide)⟩

end NetRoute
